import Mathlib

/-!
Shallow embedding of the command-mapping and execution core of
`src/simctl_mcp_server.py`, the SimCtl MCP server.

Conventions of the embedding:

* JSON/Python argument values are `Value`; `Value.null` stands for Python
  `None` (JSON `null`), and numeric arguments are embedded as integers
  (every concrete numeric value appearing in the claims is integral).
* Each tool handler `_foo` of the Python class becomes a function
  `foo : Args → World → HandlerResult`.  `World` supplies the data the run
  depends on that comes from outside the process: the terminal outcome of
  the one subprocess the handler may spawn, and the unique file name chosen
  by `tempfile.NamedTemporaryFile`.
* A handler returns the Python result (`Except Err String`, with `Err`
  mirroring the exceptions the code raises and `handle_call_tool` catches)
  together with the list of observable effects it performed: calls of
  `_run_simctl_command` and temporary-file creations/deletions.
* That a handler's result is a function of the subprocess's *terminal*
  outcome (exit status and captured streams) reflects
  `await process.communicate()` in `_run_simctl_command`: the coroutine
  resumes only after the child process has exited.
* `pyStrip` embeds Python's `str.strip()`.
-/

/-- Python/JSON values as they appear in tool-call argument dictionaries. -/
inductive Value : Type
| null
| str (s : String)
| num (n : Int)
| bool (b : Bool)
| arr (elems : List Value)
| obj (fields : List (String × Value))

/-- Python exceptions raised by the handlers and caught at the
`handle_call_tool` boundary. -/
inductive Err : Type
| keyError (key : String)
| valueError (msg : String)
| runtimeError (msg : String)
| typeError (msg : String)

/-- Python `str(exception)`: for `KeyError` this is the repr of the key,
i.e. the key wrapped in single quotes; for the others it is the message. -/
def errText : Err → String
| .keyError k => "\x27" ++ k ++ "\x27"
| .valueError m => m
| .runtimeError m => m
| .typeError m => m

/-- An invocation request's argument dictionary. -/
abbrev Args := List (String × Value)

/-- Python `dict.get(key)`: first binding of the key, if any. -/
def lookupArg : Args → String → Option Value
| [], _ => none
| (k, v) :: rest, key => if k = key then some v else lookupArg rest key

/-- Python `dict[key]`: raises `KeyError(key)` when the key is absent. -/
def getItem (args : Args) (key : String) : Except Err Value :=
  match lookupArg args key with
  | some v => Except.ok v
  | none => Except.error (Err.keyError key)

/-- Python truthiness of a JSON value. -/
def truthy : Value → Bool
| .null => false
| .str s => s != ""
| .num n => n != 0
| .bool b => b
| .arr l => !l.isEmpty
| .obj l => !l.isEmpty

/-- Truthiness of the result of `dict.get(key)` (`None` when absent). -/
def truthyOpt : Option Value → Bool
| some v => truthy v
| none => false

/-- Python `v == "lit"` for a string literal: only a string with the same
characters compares equal; values of other types are never equal to it. -/
def pyEqStr (v : Value) (s : String) : Bool :=
  match v with
  | .str t => t == s
  | _ => false

mutual

/-- Python `str()` of a value, as used by the f-strings in the source. -/
def pyStr : Value → String
| .null => "None"
| .str s => s
| .num n => toString n
| .bool b => if b then "True" else "False"
| .arr l => "[" ++ pyReprList l ++ "]"
| .obj l => "\x7b" ++ pyReprObj l ++ "\x7d"

/-- Python `repr()` of a value (containers render their elements with it). -/
def pyRepr : Value → String
| .null => "None"
| .str s => "\x27" ++ s ++ "\x27"
| .num n => toString n
| .bool b => if b then "True" else "False"
| .arr l => "[" ++ pyReprList l ++ "]"
| .obj l => "\x7b" ++ pyReprObj l ++ "\x7d"

/-- Comma-separated `repr`s of list elements. -/
def pyReprList : List Value → String
| [] => ""
| [v] => pyRepr v
| v :: rest => pyRepr v ++ ", " ++ pyReprList rest

/-- Comma-separated `repr`s of dictionary items. -/
def pyReprObj : List (String × Value) → String
| [] => ""
| [(k, v)] => "\x27" ++ k ++ "\x27: " ++ pyRepr v
| (k, v) :: rest => "\x27" ++ k ++ "\x27: " ++ pyRepr v ++ ", " ++ pyReprObj rest

end

/-- Is a value a Python `str`?  (Subprocess argument vectors must consist of
strings; other values make `create_subprocess_exec` raise.) -/
def isStrTok : Value → Bool
| .str _ => true
| _ => false

/-- Python `list.extend(x)`: lists extend elementwise, strings extend with
their characters, dictionaries with their keys; other values raise
`TypeError`. -/
def pyExtend (base : List Value) (v : Value) : Except Err (List Value) :=
  match v with
  | .arr l => .ok (base ++ l)
  | .str s => .ok (base ++ s.data.map (fun c => Value.str (String.singleton c)))
  | .obj l => .ok (base ++ l.map (fun kv => Value.str kv.1))
  | _ => .error (.typeError "object is not iterable")

/-- Python `", ".join(l)`: every element must be a string. -/
def pyJoinComma (l : List Value) : Except Err String :=
  if l.all isStrTok then .ok (String.intercalate ", " (l.map pyStr))
  else .error (.typeError "sequence item: expected str instance")

/-- Terminal outcome of launching the external tool: either the executable
could not be located (`FileNotFoundError`), or the process ran to exit with
a return code and captured output streams. -/
inductive ProcessOutcome : Type
| notFound
| ran (returncode : Int) (stdoutText stderrText : String)

/-- External inputs of one invocation: the subprocess outcome and the unique
temporary-file name the OS would hand out for this invocation. -/
structure World : Type where
  outcome : ProcessOutcome
  tmpName : String

/-- Observable effects of a handler. -/
inductive Eff : Type
| exec (cmdArgs : List Value)
| fileCreate (path : String)
| fileDelete (path : String)

/-- Did the trace invoke the executor at all? -/
def hasExec (evs : List Eff) : Bool :=
  evs.any fun e =>
    match e with
    | .exec _ => true
    | _ => false

/-- Python `str.strip()` whitespace. -/
def isPyWs (c : Char) : Bool :=
  c == ' ' || c == '\t' || c == '\n' || c == '\r' || c == '\x0b' || c == '\x0c'

/-- Drop leading whitespace characters. -/
def dropLeadingWs : List Char → List Char
| c :: rest => if isPyWs c then dropLeadingWs rest else c :: rest
| [] => []

/-- Python `str.strip()`: remove leading and trailing whitespace. -/
def pyStrip (s : String) : String :=
  String.mk (List.reverse (dropLeadingWs (List.reverse (dropLeadingWs s.data))))

/-- The full argument vector `cmd = ["xcrun", "simctl"] + args` built by
`_run_simctl_command` (line 480): the fixed tool path followed by the
per-operation tokens. -/
def fullCommand (cmdArgs : List Value) : List Value :=
  Value.str "xcrun" :: Value.str "simctl" :: cmdArgs

/-- Embedding of `_run_simctl_command` (lines 478-498).  It consumes the
subprocess's terminal outcome: `FileNotFoundError` becomes the
tool-not-found `RuntimeError`; a non-zero return code becomes a
`RuntimeError` carrying the stripped stderr text (or `"Command failed"`
when stderr is empty); a zero return code yields the stripped stdout.
A non-string token in the vector makes process creation raise `TypeError`,
which the function does not catch. -/
def runSimctlCommand (cmdArgs : List Value) (oc : ProcessOutcome) : Except Err String :=
  if (fullCommand cmdArgs).all isStrTok then
    match oc with
    | .notFound =>
        .error (.runtimeError "xcrun simctl not found. Make sure Xcode is installed.")
    | .ran rc outText errT =>
        if rc ≠ 0 then
          .error (.runtimeError ("simctl command failed: " ++
            (if errT = "" then "Command failed" else pyStrip errT)))
        else .ok (pyStrip outText)
  else .error (.typeError "expected str instance in argument vector")

/-- Result of one handler: the Python return value or exception, plus the
effect trace. -/
abbrev HandlerResult := Except Err String × List Eff

/-- Shared shape of every handler's tail: call `_run_simctl_command` with
the constructed tokens (recording the call in the trace) and post-process
its output into the response message. -/
def runWith (cmd : List Value) (w : World) (msg : String → Except Err String) : HandlerResult :=
  ((match runSimctlCommand cmd w.outcome with
    | .error e => .error e
    | .ok outText => msg outText), [Eff.exec cmd])

/-- JSON values for the `json.loads` / `json.dumps` round trip performed by
`_list_devices`. -/
inductive PyJson : Type
| null
| bool (b : Bool)
| num (n : Int)
| str (s : String)
| arr (elems : List PyJson)
| obj (fields : List (String × PyJson))

/-- Two-space indentation prefix used by `json.dumps(data, indent=2)`. -/
def indentSp (lvl : Nat) : String := String.mk (List.replicate (2 * lvl) ' ')

mutual

/-- Modelled from the Python stdlib: `json.dumps(data, indent=2)` on the
escape-free ASCII subset produced by the parser below. -/
def dumpJson : PyJson → Nat → String
| .null, _ => "null"
| .bool b, _ => if b then "true" else "false"
| .num n, _ => toString n
| .str s, _ => "\"" ++ s ++ "\""
| .arr [], _ => "[]"
| .arr (v :: rest), lvl =>
    "[\n" ++ indentSp (lvl + 1) ++ dumpJson v (lvl + 1) ++ dumpArr rest (lvl + 1)
      ++ "\n" ++ indentSp lvl ++ "]"
| .obj [], _ => "\x7b\x7d"
| .obj ((k, v) :: rest), lvl =>
    "\x7b\n" ++ indentSp (lvl + 1) ++ "\"" ++ k ++ "\": " ++ dumpJson v (lvl + 1)
      ++ dumpObj rest (lvl + 1) ++ "\n" ++ indentSp lvl ++ "\x7d"

/-- Remaining array items, each on its own indented line. -/
def dumpArr : List PyJson → Nat → String
| [], _ => ""
| v :: rest, lvl => ",\n" ++ indentSp lvl ++ dumpJson v lvl ++ dumpArr rest lvl

/-- Remaining object members, each on its own indented line. -/
def dumpObj : List (String × PyJson) → Nat → String
| [], _ => ""
| (k, v) :: rest, lvl =>
    ",\n" ++ indentSp lvl ++ "\"" ++ k ++ "\": " ++ dumpJson v lvl ++ dumpObj rest lvl

end

/-- Skip JSON whitespace. -/
def skipWs : List Char → List Char
| c :: rest => if c == ' ' || c == '\t' || c == '\n' || c == '\r' then skipWs rest else c :: rest
| [] => []

/-- Characters admitted inside a string literal by the modelled JSON subset:
printable ASCII without quote or backslash (so dumping needs no escaping). -/
def isJsonStrChar (c : Char) : Bool :=
  32 ≤ c.toNat && c.toNat ≤ 126 && c != '"' && c != '\\'

/-- Parse the remainder of a string literal after the opening quote. -/
def parseStrChars : List Char → Option (String × List Char)
| [] => none
| c :: rest =>
  if c == '"' then some ("", rest)
  else if isJsonStrChar c then
    match parseStrChars rest with
    | some (s, rem) => some (String.singleton c ++ s, rem)
    | none => none
  else none

/-- Split a leading run of decimal digits from the input. -/
def takeDigits : List Char → List Char × List Char
| [] => ([], [])
| c :: rest =>
  if c.isDigit then
    match takeDigits rest with
    | (ds, rem) => (c :: ds, rem)
  else ([], c :: rest)

/-- Numeric value of a digit run. -/
def digitsToNat (ds : List Char) : Nat :=
  ds.foldl (fun acc c => acc * 10 + (c.toNat - 48)) 0

/-- Parse an integer literal; reject leading zeros and anything that starts
a float (outside the modelled subset). -/
def parseNumTail (ds : List Char) (rem : List Char) (neg : Bool) : Option (PyJson × List Char) :=
  if ds.isEmpty then none
  else if 2 ≤ ds.length && ds.headD 'x' == '0' then none
  else
    match rem with
    | c :: _ =>
        if c == '.' || c == 'e' || c == 'E' then none
        else some (.num (if neg then -(digitsToNat ds : Int) else (digitsToNat ds : Int)), rem)
    | [] => some (.num (if neg then -(digitsToNat ds : Int) else (digitsToNat ds : Int)), rem)

/-- Parse a (possibly negative) integer literal. -/
def parseNum (cs : List Char) : Option (PyJson × List Char) :=
  match cs with
  | '-' :: rest =>
    match takeDigits rest with
    | (ds, rem) => parseNumTail ds rem true
  | _ =>
    match takeDigits cs with
    | (ds, rem) => parseNumTail ds rem false

mutual

/-- Modelled from the Python stdlib: `json.loads` restricted to the
escape-free, integer-numeric ASCII subset; inputs outside the subset fail
to parse and therefore take `_list_devices`' decode-error branch. -/
def parseVal : Nat → List Char → Option (PyJson × List Char)
| 0, _ => none
| f + 1, cs =>
  match skipWs cs with
  | [] => none
  | c :: rest =>
    if c == '"' then
      match parseStrChars rest with
      | some (s, rem) => some (.str s, rem)
      | none => none
    else if c == '[' then
      match skipWs rest with
      | ']' :: rem => some (.arr [], rem)
      | cs2 =>
        match parseElems f cs2 with
        | some (l, rem) => some (.arr l, rem)
        | none => none
    else if c == '\x7b' then
      match skipWs rest with
      | '\x7d' :: rem => some (.obj [], rem)
      | cs2 =>
        match parseMembers f cs2 with
        | some (l, rem) => some (.obj l, rem)
        | none => none
    else if c == 'n' then
      match rest with
      | 'u' :: 'l' :: 'l' :: rem => some (.null, rem)
      | _ => none
    else if c == 't' then
      match rest with
      | 'r' :: 'u' :: 'e' :: rem => some (.bool true, rem)
      | _ => none
    else if c == 'f' then
      match rest with
      | 'a' :: 'l' :: 's' :: 'e' :: rem => some (.bool false, rem)
      | _ => none
    else if c == '-' || c.isDigit then parseNum (c :: rest)
    else none

/-- Parse one or more comma-separated array elements up to `]`. -/
def parseElems : Nat → List Char → Option (List PyJson × List Char)
| 0, _ => none
| f + 1, cs =>
  match parseVal f cs with
  | none => none
  | some (v, rem) =>
    match skipWs rem with
    | ',' :: rem2 =>
      match parseElems f rem2 with
      | some (l, rem3) => some (v :: l, rem3)
      | none => none
    | ']' :: rem2 => some ([v], rem2)
    | _ => none

/-- Parse one or more comma-separated object members up to the closing
brace. -/
def parseMembers : Nat → List Char → Option (List (String × PyJson) × List Char)
| 0, _ => none
| f + 1, cs =>
  match skipWs cs with
  | '"' :: rest =>
    match parseStrChars rest with
    | none => none
    | some (k, rem) =>
      match skipWs rem with
      | ':' :: rem2 =>
        match parseVal f rem2 with
        | none => none
        | some (v, rem3) =>
          match skipWs rem3 with
          | ',' :: rem4 =>
            match parseMembers f rem4 with
            | some (l, rem5) => some ((k, v) :: l, rem5)
            | none => none
          | '\x7d' :: rem4 => some ([(k, v)], rem4)
          | _ => none
      | _ => none
  | _ => none

end

/-- Whole-input JSON parse: the value must consume the input up to trailing
whitespace. -/
def loadsJson (s : String) : Option PyJson :=
  match parseVal (s.length + 2) s.data with
  | some (j, rem) =>
    match skipWs rem with
    | [] => some j
    | _ => none
  | none => none

/-- Top-level `json.dumps(data, indent=2)`. -/
def dumpsIndent2 (j : PyJson) : String := dumpJson j 0

/-- Embedding of `_list_devices` (lines 500-522). -/
def listDevices (args : Args) (w : World) : HandlerResult :=
  let fmtJson : Bool :=
    match lookupArg args "format" with
    | some v => pyEqStr v "json"
    | none => false
  let cmd : List Value :=
    ([Value.str "list"] ++ (if fmtJson then [Value.str "-j"] else []) ++ [Value.str "devices"])
      ++ (match lookupArg args "filter" with
          | some v => if truthy v then [v] else []
          | none => [])
  runWith cmd w (fun outText =>
    if fmtJson then
      match loadsJson outText with
      | some j => .ok (dumpsIndent2 j)
      | none => .ok outText
    else .ok outText)

/-- Embedding of `_boot_device` (lines 524-532). -/
def bootDevice (args : Args) (w : World) : HandlerResult :=
  match getItem args "device" with
  | .error e => (.error e, [])
  | .ok device =>
    let cmd : List Value :=
      [Value.str "boot", device] ++
        (match lookupArg args "arch" with
         | some v => if truthy v then [Value.str ("--arch=" ++ pyStr v)] else []
         | none => [])
    runWith cmd w (fun _ => .ok ("Successfully booted device: " ++ pyStr device))

/-- Embedding of `_shutdown_device` (lines 534-538). -/
def shutdownDevice (args : Args) (w : World) : HandlerResult :=
  match getItem args "device" with
  | .error e => (.error e, [])
  | .ok device =>
    runWith [Value.str "shutdown", device] w
      (fun _ => .ok ("Successfully shutdown device: " ++ pyStr device))

/-- Embedding of `_create_device` (lines 540-548). -/
def createDevice (args : Args) (w : World) : HandlerResult :=
  match getItem args "name" with
  | .error e => (.error e, [])
  | .ok nameV =>
    match getItem args "device_type" with
    | .error e => (.error e, [])
    | .ok dtype =>
      let cmd : List Value :=
        [Value.str "create", nameV, dtype] ++
          (match lookupArg args "runtime" with
           | some v => if truthy v then [v] else []
           | none => [])
      runWith cmd w (fun outText =>
        .ok ("Created device \x27" ++ pyStr nameV ++ "\x27: " ++ outText))

/-- Embedding of `_delete_device` (lines 550-554). -/
def deleteDevice (args : Args) (w : World) : HandlerResult :=
  match getItem args "devices" with
  | .error e => (.error e, [])
  | .ok devices =>
    match devices with
    | .arr l =>
      runWith (Value.str "delete" :: l) w (fun _ =>
        match pyJoinComma l with
        | .ok s => .ok ("Successfully deleted devices: " ++ s)
        | .error e => .error e)
    | _ => (.error (.typeError "can only concatenate list to list"), [])

/-- Embedding of `_install_app` (lines 556-560). -/
def installApp (args : Args) (w : World) : HandlerResult :=
  match getItem args "device" with
  | .error e => (.error e, [])
  | .ok device =>
    match getItem args "app_path" with
    | .error e => (.error e, [])
    | .ok appPath =>
      runWith [Value.str "install", device, appPath] w (fun _ =>
        .ok ("Successfully installed app from " ++ pyStr appPath ++ " to " ++ pyStr device))

/-- Embedding of `_launch_app` (lines 562-581). -/
def launchApp (args : Args) (w : World) : HandlerResult :=
  let wfd : Bool := truthyOpt (lookupArg args "wait_for_debugger")
  let cm : Value := (lookupArg args "console_mode").getD (Value.str "none")
  let cmd1 : List Value :=
    [Value.str "launch"] ++ (if wfd then [Value.str "--wait-for-debugger"] else []) ++
      (if pyEqStr cm "console" then [Value.str "--console"]
       else if pyEqStr cm "console-pty" then [Value.str "--console-pty"]
       else [])
  match getItem args "device" with
  | .error e => (.error e, [])
  | .ok device =>
    match getItem args "bundle_id" with
    | .error e => (.error e, [])
    | .ok bundle =>
      let cmd2 := cmd1 ++ [device, bundle]
      match
        (match lookupArg args "args" with
         | some v => if truthy v then pyExtend cmd2 v else .ok cmd2
         | none => .ok cmd2) with
      | .error e => (.error e, [])
      | .ok cmd =>
        runWith cmd w (fun outText =>
          .ok ("Launched " ++ pyStr bundle ++ " on " ++ pyStr device ++ ": " ++ outText))

/-- Embedding of `_terminate_app` (lines 583-587). -/
def terminateApp (args : Args) (w : World) : HandlerResult :=
  match getItem args "device" with
  | .error e => (.error e, [])
  | .ok device =>
    match getItem args "bundle_id" with
    | .error e => (.error e, [])
    | .ok bundle =>
      runWith [Value.str "terminate", device, bundle] w (fun _ =>
        .ok ("Terminated " ++ pyStr bundle ++ " on " ++ pyStr device))

/-- Embedding of `_screenshot` (lines 589-602). -/
def screenshot (args : Args) (w : World) : HandlerResult :=
  match getItem args "device" with
  | .error e => (.error e, [])
  | .ok device =>
    let fmt := (lookupArg args "format").getD (Value.str "png")
    let disp := (lookupArg args "display").getD (Value.str "internal")
    let flags : List Value :=
      (if pyEqStr fmt "png" then []
       else [Value.str ("--type=" ++ pyStr fmt)]) ++
      (if pyEqStr disp "internal" then []
       else [Value.str ("--display=" ++ pyStr disp)])
    match getItem args "output_path" with
    | .error e => (.error e, [])
    | .ok outPath =>
      runWith ([Value.str "io", device, Value.str "screenshot"] ++ flags ++ [outPath]) w
        (fun _ => .ok ("Screenshot saved to " ++ pyStr outPath))

/-- Embedding of `_record_video` (lines 604-619).  Note that line 618 still
awaits `_run_simctl_command`, so the embedded result is a function of the
subprocess's terminal outcome. -/
def recordVideo (args : Args) (w : World) : HandlerResult :=
  match getItem args "device" with
  | .error e => (.error e, [])
  | .ok device =>
    let codec := (lookupArg args "codec").getD (Value.str "hevc")
    let disp := (lookupArg args "display").getD (Value.str "internal")
    let flags : List Value :=
      (if pyEqStr codec "hevc" then []
       else [Value.str ("--codec=" ++ pyStr codec)]) ++
      (if pyEqStr disp "internal" then []
       else [Value.str ("--display=" ++ pyStr disp)])
    match getItem args "output_path" with
    | .error e => (.error e, [])
    | .ok outPath =>
      runWith ([Value.str "io", device, Value.str "recordVideo"] ++ flags ++ [outPath]) w
        (fun _ => .ok ("Started video recording to " ++ pyStr outPath ++
          ". Send SIGINT (Ctrl+C) to stop."))

/-- Embedding of `_push_notification` (lines 621-643).  The temporary file
is created (and the payload dumped into it) before the `try` block begins;
the `finally` clause deletes it on every path of the `try` body.  When the
`payload` key is absent, `json.dump(args["payload"], f)` raises inside the
`with` block, after the file exists but before the `try`/`finally`, so no
deletion happens on that path. -/
def pushNotification (args : Args) (w : World) : HandlerResult :=
  match getItem args "payload" with
  | .error e => (.error e, [Eff.fileCreate w.tmpName])
  | .ok _payload =>
    let inner : HandlerResult :=
      match getItem args "device" with
      | .error e => (.error e, [])
      | .ok device =>
        let cmd : List Value :=
          ([Value.str "push", device] ++
            (match lookupArg args "bundle_id" with
             | some v => if truthy v then [v] else []
             | none => [])) ++ [Value.str w.tmpName]
        runWith cmd w (fun _ =>
          .ok ("Push notification sent to " ++
            pyStr ((lookupArg args "bundle_id").getD
              (Value.str "app specified in payload"))))
    (inner.1, Eff.fileCreate w.tmpName :: inner.2 ++ [Eff.fileDelete w.tmpName])

/-- Embedding of `_privacy_control` (lines 645-655). -/
def privacyControl (args : Args) (w : World) : HandlerResult :=
  match getItem args "device" with
  | .error e => (.error e, [])
  | .ok device =>
    match getItem args "action" with
    | .error e => (.error e, [])
    | .ok action =>
      match getItem args "service" with
      | .error e => (.error e, [])
      | .ok service =>
        let cmd : List Value :=
          [Value.str "privacy", device, action, service] ++
            (match lookupArg args "bundle_id" with
             | some v => if truthy v then [v] else []
             | none => [])
        runWith cmd w (fun _ =>
          .ok ("Privacy permission " ++
            (if pyEqStr action "reset" then "reset" else pyStr action ++ "ed") ++
            " for " ++ pyStr service ++ " service"))

/-- Embedding of `_set_location` (lines 657-671).  The presence of the
coordinates for the `"set"` action is tested by *truthiness* of
`args.get(...)`, so the numeric value `0` behaves exactly like an absent
coordinate. -/
def setLocation (args : Args) (w : World) : HandlerResult :=
  match getItem args "device" with
  | .error e => (.error e, [])
  | .ok device =>
    match getItem args "action" with
    | .error e => (.error e, [])
    | .ok action =>
      let base : List Value := [Value.str "location", device, action]
      let finish : List Value → HandlerResult := fun cmd =>
        runWith cmd w (fun outText =>
          if outText = "" then .ok ("Location " ++ pyStr action ++ " completed")
          else .ok outText)
      if pyEqStr action "set" then
        if truthyOpt (lookupArg args "latitude") && truthyOpt (lookupArg args "longitude") then
          let latV := (lookupArg args "latitude").getD Value.null
          let lonV := (lookupArg args "longitude").getD Value.null
          finish (base ++ [Value.str (pyStr latV ++ "," ++ pyStr lonV)])
        else
          (.error (.valueError "Latitude and longitude required for \x27set\x27 action"), [])
      else if pyEqStr action "run" then
        if truthyOpt (lookupArg args "scenario") then
          finish (base ++ [(lookupArg args "scenario").getD Value.null])
        else (.error (.valueError "Scenario required for \x27run\x27 action"), [])
      else finish base

/-- Embedding of `_status_bar_override` (lines 673-692).  The three numeric
bar/level parameters are tested with `is not None` (key presence with a
non-`None` value); the textual ones with truthiness. -/
def statusBarOverride (args : Args) (w : World) : HandlerResult :=
  match getItem args "device" with
  | .error e => (.error e, [])
  | .ok device =>
    match getItem args "action" with
    | .error e => (.error e, [])
    | .ok action =>
      let base : List Value := [Value.str "status_bar", device, action]
      let presentNonNull : Option Value → Option Value := fun o =>
        match o with
        | some Value.null => none
        | some v => some v
        | none => none
      let flags : List Value :=
        (match lookupArg args "time" with
         | some v => if truthy v then [Value.str "--time", v] else []
         | none => []) ++
        (match lookupArg args "data_network" with
         | some v => if truthy v then [Value.str "--dataNetwork", v] else []
         | none => []) ++
        (match presentNonNull (lookupArg args "wifi_bars") with
         | some v => [Value.str "--wifiBars", Value.str (pyStr v)]
         | none => []) ++
        (match presentNonNull (lookupArg args "cellular_bars") with
         | some v => [Value.str "--cellularBars", Value.str (pyStr v)]
         | none => []) ++
        (match presentNonNull (lookupArg args "battery_level") with
         | some v => [Value.str "--batteryLevel", Value.str (pyStr v)]
         | none => []) ++
        (match lookupArg args "battery_state" with
         | some v => if truthy v then [Value.str "--batteryState", v] else []
         | none => [])
      let cmd := if pyEqStr action "override" then base ++ flags else base
      runWith cmd w (fun outText =>
        if outText = "" then .ok ("Status bar " ++ pyStr action ++ " completed")
        else .ok outText)

/-- Embedding of `_ui_appearance` (lines 694-702). -/
def uiAppearance (args : Args) (w : World) : HandlerResult :=
  match getItem args "device" with
  | .error e => (.error e, [])
  | .ok device =>
    let cmd : List Value :=
      [Value.str "ui", device, Value.str "appearance"] ++
        (match lookupArg args "appearance" with
         | some v => if truthy v then [v] else []
         | none => [])
    runWith cmd w (fun outText => .ok outText)

/-- Embedding of the `if`/`elif` dispatch chain of `handle_call_tool`
(lines 437-471), up to but not including the exception boundary. -/
def dispatch (name : String) (args : Args) (w : World) : HandlerResult :=
  if name = "simctl_list_devices" then listDevices args w
  else if name = "simctl_boot_device" then bootDevice args w
  else if name = "simctl_shutdown_device" then shutdownDevice args w
  else if name = "simctl_create_device" then createDevice args w
  else if name = "simctl_delete_device" then deleteDevice args w
  else if name = "simctl_install_app" then installApp args w
  else if name = "simctl_launch_app" then launchApp args w
  else if name = "simctl_terminate_app" then terminateApp args w
  else if name = "simctl_screenshot" then screenshot args w
  else if name = "simctl_record_video" then recordVideo args w
  else if name = "simctl_push_notification" then pushNotification args w
  else if name = "simctl_privacy_control" then privacyControl args w
  else if name = "simctl_set_location" then setLocation args w
  else if name = "simctl_status_bar_override" then statusBarOverride args w
  else if name = "simctl_ui_appearance" then uiAppearance args w
  else (.error (.valueError ("Unknown tool: " ++ name)), [])

/-- Embedding of the exception boundary of `handle_call_tool`
(lines 473-476): every success returns its text, every exception is caught
and rendered as a normal text response `"Error: " + str(e)`. -/
def handleCallTool (name : String) (args : Args) (w : World) : String :=
  match (dispatch name args w).1 with
  | .ok s => s
  | .error e => "Error: " ++ errText e

/-- The fifteen operation names registered by `handle_list_tools`. -/
def opNames : List String :=
  ["simctl_list_devices", "simctl_boot_device", "simctl_shutdown_device",
   "simctl_create_device", "simctl_delete_device", "simctl_install_app",
   "simctl_launch_app", "simctl_terminate_app", "simctl_screenshot",
   "simctl_record_video", "simctl_push_notification", "simctl_privacy_control",
   "simctl_set_location", "simctl_status_bar_override", "simctl_ui_appearance"]

/-- The `required` field of each operation's declared input schema
(lines 45-434). -/
def requiredParams (name : String) : List String :=
  if name = "simctl_list_devices" then []
  else if name = "simctl_boot_device" then ["device"]
  else if name = "simctl_shutdown_device" then ["device"]
  else if name = "simctl_create_device" then ["name", "device_type"]
  else if name = "simctl_delete_device" then ["devices"]
  else if name = "simctl_install_app" then ["device", "app_path"]
  else if name = "simctl_launch_app" then ["device", "bundle_id"]
  else if name = "simctl_terminate_app" then ["device", "bundle_id"]
  else if name = "simctl_screenshot" then ["device", "output_path"]
  else if name = "simctl_record_video" then ["device", "output_path"]
  else if name = "simctl_push_notification" then ["device", "payload"]
  else if name = "simctl_privacy_control" then ["device", "action", "service"]
  else if name = "simctl_set_location" then ["device", "action"]
  else if name = "simctl_status_bar_override" then ["device", "action"]
  else if name = "simctl_ui_appearance" then ["device"]
  else []

/-- A sample world whose subprocess run succeeds with empty output. -/
def wOk : World := ⟨ProcessOutcome.ran 0 "" "", "/tmp/tmp1a2b3c.json"⟩

/-- A sample world whose subprocess run fails with exit code 1. -/
def wFail : World := ⟨ProcessOutcome.ran 1 "" "boom", "/tmp/tmp4d5e6f.json"⟩

/-- Trace of `runWith`: calling the tail always records exactly the one
executor invocation. -/
theorem runWith_trace (cmd : List Value) (w : World) (msg : String → Except Err String) :
    (runWith cmd w msg).2 = [Eff.exec cmd] := rfl

/-- C1: the video-recording handler does not return control when the
external process signals that recording started; its response is a function
of the process's terminal exit status (`_run_simctl_command` awaits
`process.communicate()`), so the call resumes only after the recording
process has exited.  Two worlds that differ only in the exit status yield
different responses, which would be impossible if control returned at the
recording-started signal.  This contradicts the code's own comment
(lines 616-617) and its returned message. -/
theorem c1_record_video_waits_for_exit :
    (dispatch "simctl_record_video"
        [("device", Value.str "booted"), ("output_path", Value.str "/tmp/demo.mov")]
        ⟨ProcessOutcome.ran 0 "" "", ""⟩).1
      = Except.ok "Started video recording to /tmp/demo.mov. Send SIGINT (Ctrl+C) to stop."
  ∧ (dispatch "simctl_record_video"
        [("device", Value.str "booted"), ("output_path", Value.str "/tmp/demo.mov")]
        ⟨ProcessOutcome.ran 1 "" "recording failed", ""⟩).1
      = Except.error (Err.runtimeError "simctl command failed: recording failed") :=
  ⟨rfl, rfl⟩

/-- C2 counterexample: booting with the out-of-enumeration architecture
`"sparc"` raises no validation error; the value is mapped into the command
line and the external tool is invoked with it. -/
theorem c2_counterexample :
    dispatch "simctl_boot_device"
        [("device", Value.str "iPhone-15"), ("arch", Value.str "sparc")] wOk
      = (Except.ok "Successfully booted device: iPhone-15",
         [Eff.exec [Value.str "boot", Value.str "iPhone-15", Value.str "--arch=sparc"]]) := rfl

/-- C2 amended: the server performs no enumeration validation.  Any
non-empty `arch` string, inside or outside the declared enumeration, is
forwarded to the external tool as `--arch=<value>`; an unrecognized
`console_mode` value is silently treated like the default and appends no
flag, with the tool still invoked. -/
theorem c2_no_enum_validation :
    (∀ (d a : String) (w : World), a ≠ "" →
        (dispatch "simctl_boot_device"
            [("device", Value.str d), ("arch", Value.str a)] w).2
          = [Eff.exec [Value.str "boot", Value.str d, Value.str ("--arch=" ++ a)]])
  ∧ (∀ (d b cm : String) (w : World), cm ≠ "console" → cm ≠ "console-pty" →
        (dispatch "simctl_launch_app"
            [("device", Value.str d), ("bundle_id", Value.str b),
             ("console_mode", Value.str cm)] w).2
          = [Eff.exec [Value.str "launch", Value.str d, Value.str b]]) := by
  constructor
  · intro d a w ha
    have h1 : (a != "") = true := bne_iff_ne.mpr ha
    simp [dispatch, bootDevice, getItem, lookupArg, truthy, pyStr, runWith, h1]
  · intro d b cm w h1 h2
    have e1 : (cm == "console") = false := beq_eq_false_iff_ne.mpr h1
    have e2 : (cm == "console-pty") = false := beq_eq_false_iff_ne.mpr h2
    simp [dispatch, launchApp, getItem, lookupArg, truthyOpt, pyEqStr, runWith, e1, e2]

/-- Witness for the amended C2 at concrete out-of-enumeration values. -/
theorem c2_no_enum_validation_witness :
    (dispatch "simctl_boot_device"
        [("device", Value.str "iPhone-15"), ("arch", Value.str "powerpc")] wOk).2
      = [Eff.exec [Value.str "boot", Value.str "iPhone-15", Value.str ("--arch=" ++ "powerpc")]]
  ∧ (dispatch "simctl_launch_app"
        [("device", Value.str "booted"), ("bundle_id", Value.str "com.example"),
         ("console_mode", Value.str "garbled")] wOk).2
      = [Eff.exec [Value.str "launch", Value.str "booted", Value.str "com.example"]] :=
  ⟨c2_no_enum_validation.1 "iPhone-15" "powerpc" wOk (by decide),
   c2_no_enum_validation.2 "booted" "com.example" "garbled" wOk (by decide) (by decide)⟩

/-- C3 counterexample: the failure produced for a non-zero exit does not
carry the exit code — runs with exit codes 1 and 2 and identical stderr
produce the very same error value, which holds only the stderr text. -/
theorem c3_counterexample :
    runSimctlCommand [Value.str "boot", Value.str "iPhone-15"]
        (ProcessOutcome.ran 1 "" "Invalid device")
      = runSimctlCommand [Value.str "boot", Value.str "iPhone-15"]
        (ProcessOutcome.ran 2 "" "Invalid device")
  ∧ runSimctlCommand [Value.str "boot", Value.str "iPhone-15"]
        (ProcessOutcome.ran 1 "" "Invalid device")
      = Except.error (Err.runtimeError "simctl command failed: Invalid device") :=
  ⟨rfl, rfl⟩

/-- C3 amended: the executor fails with the tool-not-found message when the
executable cannot be located; on a non-zero exit it fails with an error
carrying the stripped stderr text (or `"Command failed"` when stderr is
empty) but not the exit code; on a zero exit it returns stdout with
surrounding whitespace trimmed. -/
theorem c3_executor_contract :
    (∀ cmdArgs : List Value, cmdArgs.all isStrTok = true →
        runSimctlCommand cmdArgs ProcessOutcome.notFound
          = Except.error
              (Err.runtimeError "xcrun simctl not found. Make sure Xcode is installed."))
  ∧ (∀ (cmdArgs : List Value) (rc : Int) (outText errT : String),
        cmdArgs.all isStrTok = true → rc ≠ 0 →
        runSimctlCommand cmdArgs (ProcessOutcome.ran rc outText errT)
          = Except.error (Err.runtimeError ("simctl command failed: " ++
              (if errT = "" then "Command failed" else pyStrip errT))))
  ∧ (∀ (cmdArgs : List Value) (outText errT : String),
        cmdArgs.all isStrTok = true →
        runSimctlCommand cmdArgs (ProcessOutcome.ran 0 outText errT)
          = Except.ok (pyStrip outText)) := by
  refine ⟨?_, ?_, ?_⟩
  · intro c h
    simp [runSimctlCommand, fullCommand, isStrTok, h]
  · intro c rc outText errT h hrc
    simp [runSimctlCommand, fullCommand, isStrTok, h, hrc]
  · intro c outText errT h
    simp [runSimctlCommand, fullCommand, isStrTok, h]

/-- Witness for the amended C3 at concrete outcomes. -/
theorem c3_executor_contract_witness :
    runSimctlCommand [Value.str "boot"] ProcessOutcome.notFound
      = Except.error
          (Err.runtimeError "xcrun simctl not found. Make sure Xcode is installed.")
  ∧ runSimctlCommand [Value.str "boot"] (ProcessOutcome.ran 1 "" "Invalid device")
      = Except.error (Err.runtimeError ("simctl command failed: " ++
          (if ("Invalid device" : String) = "" then "Command failed"
           else pyStrip "Invalid device")))
  ∧ runSimctlCommand [Value.str "boot"] (ProcessOutcome.ran 0 " ok " "")
      = Except.ok (pyStrip " ok ") :=
  ⟨c3_executor_contract.1 [Value.str "boot"] rfl,
   c3_executor_contract.2.1 [Value.str "boot"] 1 "" "Invalid device" rfl (by decide),
   c3_executor_contract.2.2 [Value.str "boot"] " ok " "" rfl⟩

/-- C5: the boot mapping produces exactly the documented command lines, the
leading tokens being the fixed external tool path `xcrun simctl`. -/
theorem c5_boot_mapping :
    ∀ w : World,
      (dispatch "simctl_boot_device" [("device", Value.str "iPhone-15")] w).2
        = [Eff.exec [Value.str "boot", Value.str "iPhone-15"]]
    ∧ fullCommand [Value.str "boot", Value.str "iPhone-15"]
        = [Value.str "xcrun", Value.str "simctl", Value.str "boot", Value.str "iPhone-15"]
    ∧ (dispatch "simctl_boot_device"
          [("device", Value.str "iPhone-15"), ("arch", Value.str "arm64")] w).2
        = [Eff.exec [Value.str "boot", Value.str "iPhone-15", Value.str "--arch=arm64"]]
    ∧ fullCommand [Value.str "boot", Value.str "iPhone-15", Value.str "--arch=arm64"]
        = [Value.str "xcrun", Value.str "simctl", Value.str "boot", Value.str "iPhone-15",
           Value.str "--arch=arm64"] :=
  fun _ => ⟨rfl, rfl, rfl, rfl⟩

/-- C4: every failure — unknown operation, validation failure, external
tool missing, external command failure — is delivered to the caller as a
normal text response prefixed with the `"Error: "` marker.
`handleCallTool` is a total function into response text (the `except`
clause of `handle_call_tool` catches every exception the handlers raise),
so no failure escapes to the transport layer as a fault. -/
theorem c4_failures_are_text :
    (∀ (name : String) (args : Args) (w : World) (e : Err),
        (dispatch name args w).1 = Except.error e →
        handleCallTool name args w = "Error: " ++ errText e)
  ∧ (∀ (name : String) (args : Args) (w : World), name ∉ opNames →
        (dispatch name args w).1
          = Except.error (Err.valueError ("Unknown tool: " ++ name))) := by
  constructor
  · intro name args w e h
    simp [handleCallTool, h]
  · intro name args w hn
    simp only [opNames, List.mem_cons, List.not_mem_nil, or_false] at hn
    push_neg at hn
    obtain ⟨h1, h2, h3, h4, h5, h6, h7, h8, h9, h10, h11, h12, h13, h14, h15⟩ := hn
    simp [dispatch, h1, h2, h3, h4, h5, h6, h7, h8, h9, h10, h11, h12, h13, h14, h15]

/-- Witness for C4: a validation failure surfaces as `"Error: 'device'"`,
and an unregistered name produces the unknown-tool error value. -/
theorem c4_failures_are_text_witness :
    handleCallTool "simctl_boot_device" [] wOk = "Error: " ++ errText (Err.keyError "device")
  ∧ (dispatch "bogus_tool" [] wOk).1
      = Except.error (Err.valueError ("Unknown tool: " ++ "bogus_tool")) :=
  ⟨c4_failures_are_text.1 "simctl_boot_device" [] wOk (Err.keyError "device") rfl,
   c4_failures_are_text.2 "bogus_tool" [] wOk (by decide)⟩

/-- C6 counterexample: an invocation of the structured-payload operation
that omits the `payload` key creates the temporary file (inside the `with`
block, before the `try`/`finally` is entered) and never deletes it — the
trace holds a creation and no deletion, so the file is not released on
every outcome path of the operation. -/
theorem c6_counterexample :
    dispatch "simctl_push_notification" [("device", Value.str "booted")]
        ⟨ProcessOutcome.ran 0 "" "", "/tmp/tmpleak.json"⟩
      = (Except.error (Err.keyError "payload"), [Eff.fileCreate "/tmp/tmpleak.json"]) := rfl

/-- C6 amended: on every invocation in which the `payload` parameter is
supplied, the uniquely named temporary file is created immediately before
and deleted immediately after the protected body, on success and execution
failure alike (the executor call, when reached, sits between the two file
events); when `payload` is absent the file is created but never deleted. -/
theorem c6_scoped_when_payload_present :
    ∀ (args : Args) (w : World) (p : Value), lookupArg args "payload" = some p →
      (dispatch "simctl_push_notification" args w).2
          = [Eff.fileCreate w.tmpName, Eff.fileDelete w.tmpName]
      ∨ ∃ c, (dispatch "simctl_push_notification" args w).2
          = [Eff.fileCreate w.tmpName, Eff.exec c, Eff.fileDelete w.tmpName] := by
  intro args w p hp
  have hd : dispatch "simctl_push_notification" args w = pushNotification args w := rfl
  rw [hd]
  cases hdvc : lookupArg args "device" with
  | none =>
    left
    simp [pushNotification, getItem, hp, hdvc]
  | some dv =>
    right
    refine ⟨Value.str "push" :: dv ::
      ((match lookupArg args "bundle_id" with
        | some v => if truthy v then [v] else []
        | none => []) ++ [Value.str w.tmpName]), ?_⟩
    simp [pushNotification, getItem, hp, hdvc, runWith]

/-- Witness for the amended C6 at a concrete payload-bearing invocation. -/
theorem c6_scoped_when_payload_present_witness :
    (dispatch "simctl_push_notification"
        [("device", Value.str "booted"), ("payload", Value.obj [])] wOk).2
        = [Eff.fileCreate wOk.tmpName, Eff.fileDelete wOk.tmpName]
    ∨ ∃ c, (dispatch "simctl_push_notification"
        [("device", Value.str "booted"), ("payload", Value.obj [])] wOk).2
        = [Eff.fileCreate wOk.tmpName, Eff.exec c, Eff.fileDelete wOk.tmpName] :=
  c6_scoped_when_payload_present
    [("device", Value.str "booted"), ("payload", Value.obj [])] wOk (Value.obj []) rfl

/-- Missing required parameter for the boot operation. -/
theorem missingCase_boot (args : Args) (w : World) (h : lookupArg args "device" = none) :
    ∃ f, f ∈ requiredParams "simctl_boot_device" ∧ lookupArg args f = none ∧
      (bootDevice args w).1 = Except.error (Err.keyError f) ∧
      hasExec (bootDevice args w).2 = false :=
  ⟨"device", by decide, h, by simp [bootDevice, getItem, h],
    by simp [bootDevice, getItem, h, hasExec]⟩

/-- Missing required parameter for the shutdown operation. -/
theorem missingCase_shutdown (args : Args) (w : World) (h : lookupArg args "device" = none) :
    ∃ f, f ∈ requiredParams "simctl_shutdown_device" ∧ lookupArg args f = none ∧
      (shutdownDevice args w).1 = Except.error (Err.keyError f) ∧
      hasExec (shutdownDevice args w).2 = false :=
  ⟨"device", by decide, h, by simp [shutdownDevice, getItem, h],
    by simp [shutdownDevice, getItem, h, hasExec]⟩

/-- Missing required parameter for the create operation. -/
theorem missingCase_create (args : Args) (w : World)
    (h : lookupArg args "name" = none ∨ lookupArg args "device_type" = none) :
    ∃ f, f ∈ requiredParams "simctl_create_device" ∧ lookupArg args f = none ∧
      (createDevice args w).1 = Except.error (Err.keyError f) ∧
      hasExec (createDevice args w).2 = false := by
  cases hn : lookupArg args "name" with
  | none =>
    exact ⟨"name", by decide, hn, by simp [createDevice, getItem, hn],
      by simp [createDevice, getItem, hn, hasExec]⟩
  | some v =>
    have h2 : lookupArg args "device_type" = none := by
      rcases h with h | h
      · rw [hn] at h; exact Option.noConfusion h
      · exact h
    exact ⟨"device_type", by decide, h2, by simp [createDevice, getItem, hn, h2],
      by simp [createDevice, getItem, hn, h2, hasExec]⟩

/-- Missing required parameter for the delete operation. -/
theorem missingCase_delete (args : Args) (w : World) (h : lookupArg args "devices" = none) :
    ∃ f, f ∈ requiredParams "simctl_delete_device" ∧ lookupArg args f = none ∧
      (deleteDevice args w).1 = Except.error (Err.keyError f) ∧
      hasExec (deleteDevice args w).2 = false :=
  ⟨"devices", by decide, h, by simp [deleteDevice, getItem, h],
    by simp [deleteDevice, getItem, h, hasExec]⟩

/-- Missing required parameter for the install operation. -/
theorem missingCase_install (args : Args) (w : World)
    (h : lookupArg args "device" = none ∨ lookupArg args "app_path" = none) :
    ∃ f, f ∈ requiredParams "simctl_install_app" ∧ lookupArg args f = none ∧
      (installApp args w).1 = Except.error (Err.keyError f) ∧
      hasExec (installApp args w).2 = false := by
  cases hd : lookupArg args "device" with
  | none =>
    exact ⟨"device", by decide, hd, by simp [installApp, getItem, hd],
      by simp [installApp, getItem, hd, hasExec]⟩
  | some v =>
    have h2 : lookupArg args "app_path" = none := by
      rcases h with h | h
      · rw [hd] at h; exact Option.noConfusion h
      · exact h
    exact ⟨"app_path", by decide, h2, by simp [installApp, getItem, hd, h2],
      by simp [installApp, getItem, hd, h2, hasExec]⟩

/-- Missing required parameter for the launch operation. -/
theorem missingCase_launch (args : Args) (w : World)
    (h : lookupArg args "device" = none ∨ lookupArg args "bundle_id" = none) :
    ∃ f, f ∈ requiredParams "simctl_launch_app" ∧ lookupArg args f = none ∧
      (launchApp args w).1 = Except.error (Err.keyError f) ∧
      hasExec (launchApp args w).2 = false := by
  cases hd : lookupArg args "device" with
  | none =>
    exact ⟨"device", by decide, hd, by simp [launchApp, getItem, hd],
      by simp [launchApp, getItem, hd, hasExec]⟩
  | some v =>
    have h2 : lookupArg args "bundle_id" = none := by
      rcases h with h | h
      · rw [hd] at h; exact Option.noConfusion h
      · exact h
    exact ⟨"bundle_id", by decide, h2, by simp [launchApp, getItem, hd, h2],
      by simp [launchApp, getItem, hd, h2, hasExec]⟩

/-- Missing required parameter for the terminate operation. -/
theorem missingCase_terminate (args : Args) (w : World)
    (h : lookupArg args "device" = none ∨ lookupArg args "bundle_id" = none) :
    ∃ f, f ∈ requiredParams "simctl_terminate_app" ∧ lookupArg args f = none ∧
      (terminateApp args w).1 = Except.error (Err.keyError f) ∧
      hasExec (terminateApp args w).2 = false := by
  cases hd : lookupArg args "device" with
  | none =>
    exact ⟨"device", by decide, hd, by simp [terminateApp, getItem, hd],
      by simp [terminateApp, getItem, hd, hasExec]⟩
  | some v =>
    have h2 : lookupArg args "bundle_id" = none := by
      rcases h with h | h
      · rw [hd] at h; exact Option.noConfusion h
      · exact h
    exact ⟨"bundle_id", by decide, h2, by simp [terminateApp, getItem, hd, h2],
      by simp [terminateApp, getItem, hd, h2, hasExec]⟩

/-- Missing required parameter for the screenshot operation. -/
theorem missingCase_screenshot (args : Args) (w : World)
    (h : lookupArg args "device" = none ∨ lookupArg args "output_path" = none) :
    ∃ f, f ∈ requiredParams "simctl_screenshot" ∧ lookupArg args f = none ∧
      (screenshot args w).1 = Except.error (Err.keyError f) ∧
      hasExec (screenshot args w).2 = false := by
  cases hd : lookupArg args "device" with
  | none =>
    exact ⟨"device", by decide, hd, by simp [screenshot, getItem, hd],
      by simp [screenshot, getItem, hd, hasExec]⟩
  | some v =>
    have h2 : lookupArg args "output_path" = none := by
      rcases h with h | h
      · rw [hd] at h; exact Option.noConfusion h
      · exact h
    exact ⟨"output_path", by decide, h2, by simp [screenshot, getItem, hd, h2],
      by simp [screenshot, getItem, hd, h2, hasExec]⟩

/-- Missing required parameter for the record-video operation. -/
theorem missingCase_record (args : Args) (w : World)
    (h : lookupArg args "device" = none ∨ lookupArg args "output_path" = none) :
    ∃ f, f ∈ requiredParams "simctl_record_video" ∧ lookupArg args f = none ∧
      (recordVideo args w).1 = Except.error (Err.keyError f) ∧
      hasExec (recordVideo args w).2 = false := by
  cases hd : lookupArg args "device" with
  | none =>
    exact ⟨"device", by decide, hd, by simp [recordVideo, getItem, hd],
      by simp [recordVideo, getItem, hd, hasExec]⟩
  | some v =>
    have h2 : lookupArg args "output_path" = none := by
      rcases h with h | h
      · rw [hd] at h; exact Option.noConfusion h
      · exact h
    exact ⟨"output_path", by decide, h2, by simp [recordVideo, getItem, hd, h2],
      by simp [recordVideo, getItem, hd, h2, hasExec]⟩

/-- Missing required parameter for the push-notification operation (note:
`args["payload"]` is evaluated first, inside the `with` block). -/
theorem missingCase_push (args : Args) (w : World)
    (h : lookupArg args "device" = none ∨ lookupArg args "payload" = none) :
    ∃ f, f ∈ requiredParams "simctl_push_notification" ∧ lookupArg args f = none ∧
      (pushNotification args w).1 = Except.error (Err.keyError f) ∧
      hasExec (pushNotification args w).2 = false := by
  cases hp : lookupArg args "payload" with
  | none =>
    exact ⟨"payload", by decide, hp, by simp [pushNotification, getItem, hp],
      by simp [pushNotification, getItem, hp, hasExec]⟩
  | some pv =>
    have hd : lookupArg args "device" = none := by
      rcases h with h | h
      · exact h
      · rw [hp] at h; exact Option.noConfusion h
    exact ⟨"device", by decide, hd, by simp [pushNotification, getItem, hp, hd],
      by simp [pushNotification, getItem, hp, hd, hasExec]⟩

/-- Missing required parameter for the privacy operation. -/
theorem missingCase_privacy (args : Args) (w : World)
    (h : lookupArg args "device" = none ∨ lookupArg args "action" = none ∨
         lookupArg args "service" = none) :
    ∃ f, f ∈ requiredParams "simctl_privacy_control" ∧ lookupArg args f = none ∧
      (privacyControl args w).1 = Except.error (Err.keyError f) ∧
      hasExec (privacyControl args w).2 = false := by
  cases hd : lookupArg args "device" with
  | none =>
    exact ⟨"device", by decide, hd, by simp [privacyControl, getItem, hd],
      by simp [privacyControl, getItem, hd, hasExec]⟩
  | some dv =>
    cases ha : lookupArg args "action" with
    | none =>
      exact ⟨"action", by decide, ha, by simp [privacyControl, getItem, hd, ha],
        by simp [privacyControl, getItem, hd, ha, hasExec]⟩
    | some av =>
      have hs : lookupArg args "service" = none := by
        rcases h with h | h | h
        · rw [hd] at h; exact Option.noConfusion h
        · rw [ha] at h; exact Option.noConfusion h
        · exact h
      exact ⟨"service", by decide, hs, by simp [privacyControl, getItem, hd, ha, hs],
        by simp [privacyControl, getItem, hd, ha, hs, hasExec]⟩

/-- Missing required parameter for the location operation. -/
theorem missingCase_location (args : Args) (w : World)
    (h : lookupArg args "device" = none ∨ lookupArg args "action" = none) :
    ∃ f, f ∈ requiredParams "simctl_set_location" ∧ lookupArg args f = none ∧
      (setLocation args w).1 = Except.error (Err.keyError f) ∧
      hasExec (setLocation args w).2 = false := by
  cases hd : lookupArg args "device" with
  | none =>
    exact ⟨"device", by decide, hd, by simp [setLocation, getItem, hd],
      by simp [setLocation, getItem, hd, hasExec]⟩
  | some dv =>
    have h2 : lookupArg args "action" = none := by
      rcases h with h | h
      · rw [hd] at h; exact Option.noConfusion h
      · exact h
    exact ⟨"action", by decide, h2, by simp [setLocation, getItem, hd, h2],
      by simp [setLocation, getItem, hd, h2, hasExec]⟩

/-- Missing required parameter for the status-bar operation. -/
theorem missingCase_statusBar (args : Args) (w : World)
    (h : lookupArg args "device" = none ∨ lookupArg args "action" = none) :
    ∃ f, f ∈ requiredParams "simctl_status_bar_override" ∧ lookupArg args f = none ∧
      (statusBarOverride args w).1 = Except.error (Err.keyError f) ∧
      hasExec (statusBarOverride args w).2 = false := by
  cases hd : lookupArg args "device" with
  | none =>
    exact ⟨"device", by decide, hd, by simp [statusBarOverride, getItem, hd],
      by simp [statusBarOverride, getItem, hd, hasExec]⟩
  | some dv =>
    have h2 : lookupArg args "action" = none := by
      rcases h with h | h
      · rw [hd] at h; exact Option.noConfusion h
      · exact h
    exact ⟨"action", by decide, h2, by simp [statusBarOverride, getItem, hd, h2],
      by simp [statusBarOverride, getItem, hd, h2, hasExec]⟩

/-- Missing required parameter for the appearance operation. -/
theorem missingCase_ui (args : Args) (w : World) (h : lookupArg args "device" = none) :
    ∃ f, f ∈ requiredParams "simctl_ui_appearance" ∧ lookupArg args f = none ∧
      (uiAppearance args w).1 = Except.error (Err.keyError f) ∧
      hasExec (uiAppearance args w).2 = false :=
  ⟨"device", by decide, h, by simp [uiAppearance, getItem, h],
    by simp [uiAppearance, getItem, h, hasExec]⟩

/-- C7: for every operation and every one of its required parameters, a
request omitting that parameter raises `KeyError` — the missing-parameter
failure, surfaced with an offending (missing, required) field named — and
the executor is never invoked for that request. -/
theorem c7_missing_required :
    ∀ (name p : String), p ∈ requiredParams name →
    ∀ (args : Args) (w : World), lookupArg args p = none →
    ∃ f, f ∈ requiredParams name ∧ lookupArg args f = none ∧
      (dispatch name args w).1 = Except.error (Err.keyError f) ∧
      hasExec (dispatch name args w).2 = false := by
  intro name p hp args w hmiss
  by_cases n1 : name = "simctl_list_devices"
  · subst n1
    rw [show requiredParams "simctl_list_devices" = [] from rfl] at hp
    exact absurd hp (List.not_mem_nil p)
  by_cases n2 : name = "simctl_boot_device"
  · subst n2
    rw [show requiredParams "simctl_boot_device" = ["device"] from rfl] at hp
    simp only [List.mem_cons, List.not_mem_nil, or_false] at hp
    subst hp
    rw [show dispatch "simctl_boot_device" args w = bootDevice args w from rfl]
    exact missingCase_boot args w hmiss
  by_cases n3 : name = "simctl_shutdown_device"
  · subst n3
    rw [show requiredParams "simctl_shutdown_device" = ["device"] from rfl] at hp
    simp only [List.mem_cons, List.not_mem_nil, or_false] at hp
    subst hp
    rw [show dispatch "simctl_shutdown_device" args w = shutdownDevice args w from rfl]
    exact missingCase_shutdown args w hmiss
  by_cases n4 : name = "simctl_create_device"
  · subst n4
    rw [show requiredParams "simctl_create_device" = ["name", "device_type"] from rfl] at hp
    simp only [List.mem_cons, List.not_mem_nil, or_false] at hp
    rw [show dispatch "simctl_create_device" args w = createDevice args w from rfl]
    refine missingCase_create args w ?_
    rcases hp with rfl | rfl
    · exact Or.inl hmiss
    · exact Or.inr hmiss
  by_cases n5 : name = "simctl_delete_device"
  · subst n5
    rw [show requiredParams "simctl_delete_device" = ["devices"] from rfl] at hp
    simp only [List.mem_cons, List.not_mem_nil, or_false] at hp
    subst hp
    rw [show dispatch "simctl_delete_device" args w = deleteDevice args w from rfl]
    exact missingCase_delete args w hmiss
  by_cases n6 : name = "simctl_install_app"
  · subst n6
    rw [show requiredParams "simctl_install_app" = ["device", "app_path"] from rfl] at hp
    simp only [List.mem_cons, List.not_mem_nil, or_false] at hp
    rw [show dispatch "simctl_install_app" args w = installApp args w from rfl]
    refine missingCase_install args w ?_
    rcases hp with rfl | rfl
    · exact Or.inl hmiss
    · exact Or.inr hmiss
  by_cases n7 : name = "simctl_launch_app"
  · subst n7
    rw [show requiredParams "simctl_launch_app" = ["device", "bundle_id"] from rfl] at hp
    simp only [List.mem_cons, List.not_mem_nil, or_false] at hp
    rw [show dispatch "simctl_launch_app" args w = launchApp args w from rfl]
    refine missingCase_launch args w ?_
    rcases hp with rfl | rfl
    · exact Or.inl hmiss
    · exact Or.inr hmiss
  by_cases n8 : name = "simctl_terminate_app"
  · subst n8
    rw [show requiredParams "simctl_terminate_app" = ["device", "bundle_id"] from rfl] at hp
    simp only [List.mem_cons, List.not_mem_nil, or_false] at hp
    rw [show dispatch "simctl_terminate_app" args w = terminateApp args w from rfl]
    refine missingCase_terminate args w ?_
    rcases hp with rfl | rfl
    · exact Or.inl hmiss
    · exact Or.inr hmiss
  by_cases n9 : name = "simctl_screenshot"
  · subst n9
    rw [show requiredParams "simctl_screenshot" = ["device", "output_path"] from rfl] at hp
    simp only [List.mem_cons, List.not_mem_nil, or_false] at hp
    rw [show dispatch "simctl_screenshot" args w = screenshot args w from rfl]
    refine missingCase_screenshot args w ?_
    rcases hp with rfl | rfl
    · exact Or.inl hmiss
    · exact Or.inr hmiss
  by_cases n10 : name = "simctl_record_video"
  · subst n10
    rw [show requiredParams "simctl_record_video" = ["device", "output_path"] from rfl] at hp
    simp only [List.mem_cons, List.not_mem_nil, or_false] at hp
    rw [show dispatch "simctl_record_video" args w = recordVideo args w from rfl]
    refine missingCase_record args w ?_
    rcases hp with rfl | rfl
    · exact Or.inl hmiss
    · exact Or.inr hmiss
  by_cases n11 : name = "simctl_push_notification"
  · subst n11
    rw [show requiredParams "simctl_push_notification" = ["device", "payload"] from rfl] at hp
    simp only [List.mem_cons, List.not_mem_nil, or_false] at hp
    rw [show dispatch "simctl_push_notification" args w = pushNotification args w from rfl]
    refine missingCase_push args w ?_
    rcases hp with rfl | rfl
    · exact Or.inl hmiss
    · exact Or.inr hmiss
  by_cases n12 : name = "simctl_privacy_control"
  · subst n12
    rw [show requiredParams "simctl_privacy_control"
          = ["device", "action", "service"] from rfl] at hp
    simp only [List.mem_cons, List.not_mem_nil, or_false] at hp
    rw [show dispatch "simctl_privacy_control" args w = privacyControl args w from rfl]
    refine missingCase_privacy args w ?_
    rcases hp with rfl | rfl | rfl
    · exact Or.inl hmiss
    · exact Or.inr (Or.inl hmiss)
    · exact Or.inr (Or.inr hmiss)
  by_cases n13 : name = "simctl_set_location"
  · subst n13
    rw [show requiredParams "simctl_set_location" = ["device", "action"] from rfl] at hp
    simp only [List.mem_cons, List.not_mem_nil, or_false] at hp
    rw [show dispatch "simctl_set_location" args w = setLocation args w from rfl]
    refine missingCase_location args w ?_
    rcases hp with rfl | rfl
    · exact Or.inl hmiss
    · exact Or.inr hmiss
  by_cases n14 : name = "simctl_status_bar_override"
  · subst n14
    rw [show requiredParams "simctl_status_bar_override" = ["device", "action"] from rfl] at hp
    simp only [List.mem_cons, List.not_mem_nil, or_false] at hp
    rw [show dispatch "simctl_status_bar_override" args w
          = statusBarOverride args w from rfl]
    refine missingCase_statusBar args w ?_
    rcases hp with rfl | rfl
    · exact Or.inl hmiss
    · exact Or.inr hmiss
  by_cases n15 : name = "simctl_ui_appearance"
  · subst n15
    rw [show requiredParams "simctl_ui_appearance" = ["device"] from rfl] at hp
    simp only [List.mem_cons, List.not_mem_nil, or_false] at hp
    subst hp
    rw [show dispatch "simctl_ui_appearance" args w = uiAppearance args w from rfl]
    exact missingCase_ui args w hmiss
  · have hempty : requiredParams name = [] := by
      simp [requiredParams, n1, n2, n3, n4, n5, n6, n7, n8, n9, n10, n11, n12, n13, n14, n15]
    rw [hempty] at hp
    exact absurd hp (List.not_mem_nil p)

/-- Witness for C7: the boot operation invoked with empty arguments. -/
theorem c7_missing_required_witness :
    "device" ∈ requiredParams "simctl_boot_device"
  ∧ lookupArg [] "device" = none
  ∧ ∃ f, f ∈ requiredParams "simctl_boot_device" ∧ lookupArg [] f = none ∧
      (dispatch "simctl_boot_device" [] wOk).1 = Except.error (Err.keyError f) ∧
      hasExec (dispatch "simctl_boot_device" [] wOk).2 = false :=
  ⟨by decide, rfl, c7_missing_required "simctl_boot_device" "device" (by decide) [] wOk rfl⟩

/-- C8 counterexample: both coordinates are supplied (latitude 0,
longitude 50), yet the request is rejected with the missing-coordinates
error and never mapped, because presence is tested by truthiness and `0`
is falsy. -/
theorem c8_counterexample :
    dispatch "simctl_set_location"
        [("device", Value.str "booted"), ("action", Value.str "set"),
         ("latitude", Value.num 0), ("longitude", Value.num 50)] wOk
      = (Except.error
          (Err.valueError "Latitude and longitude required for \x27set\x27 action"), []) := rfl

/-- C8 amended: the latitude/longitude pair is validated as a unit by
*truthiness*, not key presence: if either coordinate is absent or falsy
(for example `0`), the result is the coordinate validation error and the
external tool is never invoked; if both are present and truthy they are
mapped into the single `"latitude,longitude"` token. -/
theorem c8_location_pair_truthiness :
    (∀ (args : Args) (w : World) (d : Value),
        lookupArg args "device" = some d →
        lookupArg args "action" = some (Value.str "set") →
        (truthyOpt (lookupArg args "latitude") = false ∨
         truthyOpt (lookupArg args "longitude") = false) →
        dispatch "simctl_set_location" args w
          = (Except.error
              (Err.valueError "Latitude and longitude required for \x27set\x27 action"), []))
  ∧ (∀ (args : Args) (w : World) (d lv gv : Value),
        lookupArg args "device" = some d →
        lookupArg args "action" = some (Value.str "set") →
        lookupArg args "latitude" = some lv → truthy lv = true →
        lookupArg args "longitude" = some gv → truthy gv = true →
        (dispatch "simctl_set_location" args w).2
          = [Eff.exec [Value.str "location", d, Value.str "set",
              Value.str (pyStr lv ++ "," ++ pyStr gv)]]) := by
  constructor
  · intro args w d hd ha h
    rw [show dispatch "simctl_set_location" args w = setLocation args w from rfl]
    rcases h with h | h <;>
      simp [setLocation, getItem, hd, ha, pyEqStr, h]
  · intro args w d lv gv hd ha hlat htlat hlon htlon
    rw [show dispatch "simctl_set_location" args w = setLocation args w from rfl]
    simp [setLocation, getItem, hd, ha, pyEqStr, truthyOpt, hlat, htlat, hlon, htlon, runWith]

/-- Witness for the amended C8: a falsy pair member rejects, a truthy pair
maps to the single coordinate token. -/
theorem c8_location_pair_truthiness_witness :
    dispatch "simctl_set_location"
        [("device", Value.str "booted"), ("action", Value.str "set"),
         ("longitude", Value.num 50)] wOk
      = (Except.error
          (Err.valueError "Latitude and longitude required for \x27set\x27 action"), [])
  ∧ (dispatch "simctl_set_location"
        [("device", Value.str "booted"), ("action", Value.str "set"),
         ("latitude", Value.num 35), ("longitude", Value.num 50)] wOk).2
      = [Eff.exec [Value.str "location", Value.str "booted", Value.str "set",
          Value.str (pyStr (Value.num 35) ++ "," ++ pyStr (Value.num 50))]] :=
  ⟨c8_location_pair_truthiness.1
      [("device", Value.str "booted"), ("action", Value.str "set"),
       ("longitude", Value.num 50)] wOk (Value.str "booted") rfl rfl (Or.inl rfl),
   c8_location_pair_truthiness.2
      [("device", Value.str "booted"), ("action", Value.str "set"),
       ("latitude", Value.num 35), ("longitude", Value.num 50)] wOk
      (Value.str "booted") (Value.num 35) (Value.num 50) rfl rfl rfl rfl rfl rfl⟩

/-- C9: in the launch mapping, `wait_for_debugger` maps to presence or
absence of the single token `"--wait-for-debugger"` (never a flag carrying
a textual true/false value), and `console_mode` maps by fixed lookup:
`"console"` appends `"--console"`, `"console-pty"` appends
`"--console-pty"`, and `"none"` or omission appends no flag. -/
theorem c9_launch_flag_mapping :
    ∀ (d b : String) (w : World) (wfd : Bool),
      (dispatch "simctl_launch_app"
          [("device", Value.str d), ("bundle_id", Value.str b),
           ("wait_for_debugger", Value.bool wfd)] w).2
        = [Eff.exec ((Value.str "launch" ::
            (if wfd then [Value.str "--wait-for-debugger"] else [])) ++
            [Value.str d, Value.str b])]
    ∧ (dispatch "simctl_launch_app"
          [("device", Value.str d), ("bundle_id", Value.str b),
           ("console_mode", Value.str "console")] w).2
        = [Eff.exec [Value.str "launch", Value.str "--console", Value.str d, Value.str b]]
    ∧ (dispatch "simctl_launch_app"
          [("device", Value.str d), ("bundle_id", Value.str b),
           ("console_mode", Value.str "console-pty")] w).2
        = [Eff.exec [Value.str "launch", Value.str "--console-pty",
            Value.str d, Value.str b]]
    ∧ (dispatch "simctl_launch_app"
          [("device", Value.str d), ("bundle_id", Value.str b),
           ("console_mode", Value.str "none")] w).2
        = [Eff.exec [Value.str "launch", Value.str d, Value.str b]]
    ∧ (dispatch "simctl_launch_app"
          [("device", Value.str d), ("bundle_id", Value.str b)] w).2
        = [Eff.exec [Value.str "launch", Value.str d, Value.str b]] := by
  intro d b w wfd
  refine ⟨?_, rfl, rfl, rfl, rfl⟩
  cases wfd <;> rfl

/-- C10: the presence of each coordinate of `simctl_set_location`'s `"set"`
action is tested by truthiness, so a supplied coordinate value `0` is
rejected with the missing-coordinates error without invoking the external
tool, and an argument dictionary binding `latitude` to `0` behaves exactly
like one lacking the key. -/
theorem c10_zero_coordinate_like_absent :
    (∀ (args : Args) (w : World) (d : Value),
        lookupArg args "device" = some d →
        lookupArg args "action" = some (Value.str "set") →
        lookupArg args "latitude" = some (Value.num 0) →
        dispatch "simctl_set_location" args w
          = (Except.error
              (Err.valueError "Latitude and longitude required for \x27set\x27 action"), []))
  ∧ (∀ (args : Args) (w : World) (d : Value),
        lookupArg args "device" = some d →
        lookupArg args "action" = some (Value.str "set") →
        lookupArg args "longitude" = some (Value.num 0) →
        dispatch "simctl_set_location" args w
          = (Except.error
              (Err.valueError "Latitude and longitude required for \x27set\x27 action"), []))
  ∧ (∀ (args : Args) (w : World), lookupArg args "latitude" = none →
        dispatch "simctl_set_location" (("latitude", Value.num 0) :: args) w
          = dispatch "simctl_set_location" args w) := by
  refine ⟨?_, ?_, ?_⟩
  · intro args w d hd ha hlat
    rw [show dispatch "simctl_set_location" args w = setLocation args w from rfl]
    simp [setLocation, getItem, hd, ha, pyEqStr, truthyOpt, truthy, hlat]
  · intro args w d hd ha hlon
    rw [show dispatch "simctl_set_location" args w = setLocation args w from rfl]
    simp [setLocation, getItem, hd, ha, pyEqStr, truthyOpt, truthy, hlon]
  · intro args w h
    rw [show dispatch "simctl_set_location" (("latitude", Value.num 0) :: args) w
          = setLocation (("latitude", Value.num 0) :: args) w from rfl,
        show dispatch "simctl_set_location" args w = setLocation args w from rfl]
    have e1 : lookupArg (("latitude", Value.num 0) :: args) "device"
        = lookupArg args "device" := by simp [lookupArg]
    have e2 : lookupArg (("latitude", Value.num 0) :: args) "action"
        = lookupArg args "action" := by simp [lookupArg]
    have e3 : lookupArg (("latitude", Value.num 0) :: args) "latitude"
        = some (Value.num 0) := by simp [lookupArg]
    have e4 : lookupArg (("latitude", Value.num 0) :: args) "longitude"
        = lookupArg args "longitude" := by simp [lookupArg]
    have e5 : lookupArg (("latitude", Value.num 0) :: args) "scenario"
        = lookupArg args "scenario" := by simp [lookupArg]
    simp only [setLocation, getItem, e1, e2, e3, e4, e5, h, truthyOpt, truthy]
    norm_num

/-- Witness for C10: latitude `0` with longitude `50` is rejected, and the
explicit zero binding is interchangeable with its absence. -/
theorem c10_zero_coordinate_like_absent_witness :
    dispatch "simctl_set_location"
        [("device", Value.str "booted"), ("action", Value.str "set"),
         ("latitude", Value.num 0), ("longitude", Value.num 50)] wFail
      = (Except.error
          (Err.valueError "Latitude and longitude required for \x27set\x27 action"), [])
  ∧ dispatch "simctl_set_location"
        (("latitude", Value.num 0) ::
          [("device", Value.str "booted"), ("action", Value.str "set")]) wOk
      = dispatch "simctl_set_location"
          [("device", Value.str "booted"), ("action", Value.str "set")] wOk :=
  ⟨c10_zero_coordinate_like_absent.1
      [("device", Value.str "booted"), ("action", Value.str "set"),
       ("latitude", Value.num 0), ("longitude", Value.num 50)] wFail
      (Value.str "booted") rfl rfl rfl,
   c10_zero_coordinate_like_absent.2.2
      [("device", Value.str "booted"), ("action", Value.str "set")] wOk rfl⟩
